import Mathlib

/-!
Verification of the Raworc control plane against its specification.

The definitions below are a shallow embedding of the Rust sources:
machine integers become `Nat`/`Int`, UUIDs become `Nat`, timestamps become
`Nat`, nullable columns become `Option`, fallible code returns `Except`,
and SQL tables become Lean lists with queries embedded as list operations.
-/

namespace Raworc

/-- Subject type for role bindings (src/rbac.rs `SubjectType`). -/
inductive SubjectType where
  | Subject
  | ServiceAccount
deriving DecidableEq, Repr

/-- RBAC subject: external user identifier (src/rbac.rs `Subject`). -/
structure Subject where
  name : String
deriving DecidableEq, Repr

/-- Service account: global account with credentials (src/rbac.rs `ServiceAccount`). -/
structure ServiceAccount where
  id : Option Nat
  user : String
  pass_hash : String
  description : Option String
  created_at : String
  updated_at : String
  active : Bool
  last_login_at : Option String
deriving DecidableEq, Repr

/-- Permission rule (src/rbac.rs `Rule`). -/
structure Rule where
  api_groups : List String
  resources : List String
  verbs : List String
  resource_names : Option (List String)
deriving DecidableEq, Repr

/-- Role: global collection of permission rules (src/rbac.rs `Role`). -/
structure Role where
  id : Option Nat
  name : String
  rules : List Rule
  description : Option String
  created_at : String
deriving DecidableEq, Repr

/-- Role binding: links a role to a principal, optionally scoped to a
workspace; `none` workspace means global (src/rbac.rs `RoleBinding`). -/
structure RoleBinding where
  id : Option Nat
  role_name : String
  principal_name : String
  principal_type : SubjectType
  workspace : Option String
  created_at : String
deriving DecidableEq, Repr

/-- Authenticated principal (src/rbac.rs `AuthPrincipal`). -/
inductive AuthPrincipal where
  | subject (s : Subject)
  | serviceAccount (sa : ServiceAccount)
deriving DecidableEq, Repr

/-- `AuthPrincipal::name` (src/rbac.rs). -/
def AuthPrincipal.name : AuthPrincipal → String
  | .subject s => s.name
  | .serviceAccount sa => sa.user

/-- `AuthPrincipal::subject_type` (src/rbac.rs). -/
def AuthPrincipal.subject_type : AuthPrincipal → SubjectType
  | .subject _ => SubjectType.Subject
  | .serviceAccount _ => SubjectType.ServiceAccount

/-- Permission check context (src/rbac.rs `PermissionContext`). -/
structure PermissionContext where
  api_group : String
  resource : String
  verb : String
  resource_name : Option String
  workspace : Option String
deriving DecidableEq, Repr

/-- `PermissionContext::new` (src/rbac.rs). -/
def PermissionContext.new (api_group resource verb : String) : PermissionContext :=
  { api_group := api_group, resource := resource, verb := verb,
    resource_name := none, workspace := none }

/-- `RbacAuthz::rule_grants_permission` (src/rbac.rs lines 275-298). -/
def rule_grants_permission (rule : Rule) (context : PermissionContext) : Bool :=
  let api_group_match :=
    rule.api_groups.contains "*" || rule.api_groups.contains context.api_group
  let resource_match :=
    rule.resources.contains "*" || rule.resources.contains context.resource
  let verb_match :=
    rule.verbs.contains "*" || rule.verbs.contains context.verb
  let resource_name_match :=
    match rule.resource_names, context.resource_name with
    | none, _ => true
    | some allowed_names, some requested_name =>
        allowed_names.contains "*" || allowed_names.contains requested_name
    | some _, none => false
  api_group_match && resource_match && verb_match && resource_name_match

/-- `RbacAuthz::role_grants_permission` (src/rbac.rs lines 268-272). -/
def role_grants_permission (role : Role) (context : PermissionContext) : Bool :=
  role.rules.any (fun rule => rule_grants_permission rule context)

/-- `RbacAuthz::get_applicable_bindings` (src/rbac.rs lines 253-264): the
bindings retained for a principal.  Note: the filter tests only the
principal type and name; the binding's workspace is never examined. -/
def get_applicable_bindings (principal : AuthPrincipal)
    (role_bindings : List RoleBinding) : List RoleBinding :=
  role_bindings.filter (fun binding =>
    binding.principal_type == principal.subject_type
      && binding.principal_name == principal.name)

/-- `RbacAuthz::has_permission` (src/rbac.rs lines 229-250). -/
def has_permission (principal : AuthPrincipal) (roles : List Role)
    (role_bindings : List RoleBinding) (context : PermissionContext) : Bool :=
  let applicable_bindings := get_applicable_bindings principal role_bindings
  let bound_roles := applicable_bindings.filterMap
    (fun binding => roles.find? (fun role => role.name == binding.role_name))
  bound_roles.any (fun role => role_grants_permission role context)

/-- `Database::get_role_bindings_for_subject` (src/database.rs lines 483-522),
embedded over a list of rows: filters by principal name and type, and by
workspace only when a workspace argument is passed. -/
def get_role_bindings_for_subject (rows : List RoleBinding)
    (subject_name : String) (subject_type : SubjectType)
    (workspace : Option String) : List RoleBinding :=
  match workspace with
  | some ns => rows.filter (fun b =>
      b.principal_name == subject_name && b.principal_type == subject_type
        && (b.workspace == some ns || b.workspace == none))
  | none => rows.filter (fun b =>
      b.principal_name == subject_name && b.principal_type == subject_type)

/-- Stored RBAC state used by `check_permission`. -/
structure RbacDb where
  roles : List Role
  role_bindings : List RoleBinding
deriving Repr

/-- `check_permission` (src/auth.rs lines 89-107): loads all roles, loads
the principal's bindings with the workspace argument fixed to `None`, and
calls the engine. -/
def check_permission (principal : AuthPrincipal) (db : RbacDb)
    (context : PermissionContext) : Bool :=
  let roles := db.roles
  let role_bindings := get_role_bindings_for_subject db.role_bindings
    principal.name principal.subject_type none
  has_permission principal roles role_bindings context

/-- Session lifecycle states (src/models/session.rs `SessionState`). -/
inductive SessionState where
  | Init
  | Ready
  | Idle
  | Busy
  | Error
deriving DecidableEq, Repr

/-- `SessionState::can_transition_to` (src/models/session.rs lines 19-45). -/
def can_transition_to (s target : SessionState) : Bool :=
  match s, target with
  | SessionState.Init, SessionState.Ready => true
  | SessionState.Init, SessionState.Error => true
  | SessionState.Ready, SessionState.Idle => true
  | SessionState.Ready, SessionState.Busy => true
  | SessionState.Ready, SessionState.Error => true
  | SessionState.Idle, SessionState.Ready => true
  | SessionState.Idle, SessionState.Error => true
  | SessionState.Busy, SessionState.Ready => true
  | SessionState.Busy, SessionState.Error => true
  | SessionState.Error, SessionState.Init => true
  | SessionState.Error, SessionState.Ready => true
  | _, _ => false

/-- `SessionState::requires_container` (src/models/session.rs lines 48-53). -/
def requires_container : SessionState → Bool
  | SessionState.Ready => true
  | SessionState.Busy => true
  | _ => false

/-- Display name of a state, used in error messages (matches the Rust
`Debug` rendering used by `format!`). -/
def state_name : SessionState → String
  | SessionState.Init => "Init"
  | SessionState.Ready => "Ready"
  | SessionState.Idle => "Idle"
  | SessionState.Busy => "Busy"
  | SessionState.Error => "Error"

/-- A session row (src/models/session.rs `Session`); UUIDs and timestamps
are modelled as `Nat`, the JSON metadata blob as a `String`. -/
structure Session where
  id : Nat
  name : String
  workspace : String
  starting_prompt : String
  state : SessionState
  waiting_timeout_seconds : Option Int
  container_id : Option String
  persistent_volume_id : Option String
  created_by : String
  parent_session_id : Option Nat
  created_at : Nat
  started_at : Option Nat
  last_activity_at : Option Nat
  terminated_at : Option Nat
  termination_reason : Option String
  metadata : String
  deleted_at : Option Nat
deriving DecidableEq, Repr

/-- `UpdateSessionStateRequest` (src/models/session.rs). -/
structure UpdateSessionStateRequest where
  state : SessionState
  container_id : Option String
  persistent_volume_id : Option String
  termination_reason : Option String
deriving DecidableEq, Repr

/-- `Session::find_by_id` (src/models/session.rs lines 210-224): first row
with the id and `deleted_at IS NULL`. -/
def Session.find_by_id (table : List Session) (id : Nat) : Option Session :=
  table.find? (fun s => s.id == id && s.deleted_at == none)

/-- The column writes of the dynamic UPDATE in `Session::update_state`
(src/models/session.rs lines 324-384): state and `last_activity_at` always;
`started_at := now` whenever the target state is `Ready`; `terminated_at`
and the optional reason on `Error`; container and volume ids when supplied. -/
def apply_state_update (s : Session) (now : Nat)
    (req : UpdateSessionStateRequest) : Session :=
  let s := { s with state := req.state, last_activity_at := some now }
  let s := if req.state = SessionState.Ready then { s with started_at := some now } else s
  let s :=
    if req.state = SessionState.Error then
      let s := { s with terminated_at := some now }
      match req.termination_reason with
      | some reason => { s with termination_reason := some reason }
      | none => s
    else s
  let s :=
    match req.container_id with
    | some cid => { s with container_id := some cid }
    | none => s
  match req.persistent_volume_id with
  | some pv => { s with persistent_volume_id := some pv }
  | none => s

/-- `Session::update_state` (src/models/session.rs lines 306-385), state
passing over the sessions table: validate the transition against the
current row, then run the UPDATE; the table is returned unchanged when
validation fails or the row is missing. -/
def Session.update_state (table : List Session) (now : Nat) (id : Nat)
    (req : UpdateSessionStateRequest) :
    List Session × Except String (Option Session) :=
  match Session.find_by_id table id with
  | none => (table, Except.ok none)
  | some session =>
    if can_transition_to session.state req.state then
      let table := table.map (fun r => if r.id == id then apply_state_update r now req else r)
      (table, Except.ok (Session.find_by_id table id))
    else
      (table, Except.error ("Invalid state transition from "
        ++ state_name session.state ++ " to " ++ state_name req.state))

/-- API error kinds surfaced by the REST layer (src/rest/error.rs). -/
inductive ApiError where
  | badRequest (msg : String)
  | unauthorized
  | forbidden (msg : String)
  | notFound (msg : String)
  | internal (msg : String)
deriving DecidableEq, Repr

/-- The state-update endpoint `update_session_state`
(src/server/rest/handlers/sessions.rs lines 292-336): an error mentioning
an invalid state transition is surfaced as a bad request, a missing row as
not found.  The Rust code tests the error text with `contains`; the only
error text `update_state` produces starts with that text, modelled here
with a prefix test. -/
def update_session_state_endpoint (table : List Session) (now : Nat) (id : Nat)
    (req : UpdateSessionStateRequest) : List Session × Except ApiError Session :=
  match Session.update_state table now id req with
  | (t, Except.error e) =>
      (t, Except.error (if ("Invalid state transition").data.isPrefixOf e.data
            then ApiError.badRequest e
            else ApiError.internal e))
  | (t, Except.ok none) => (t, Except.error (ApiError.notFound "Session not found"))
  | (t, Except.ok (some s)) => (t, Except.ok s)

/-- `complete_session_processing` (src/rest/handlers/session_complete.rs
lines 13-58): on a missing session not found, on a non-`Busy` session a bad
request without touching the table, otherwise the conditional UPDATE to
`READY` stamping `last_activity_at`. -/
def complete_session_processing (table : List Session) (now : Nat)
    (session_id : Nat) : List Session × Except ApiError Unit :=
  match Session.find_by_id table session_id with
  | none => (table, Except.error (ApiError.notFound "Session not found"))
  | some session =>
    if session.state ≠ SessionState.Busy then
      (table, Except.error (ApiError.badRequest
        ("Session is not in BUSY state, current state: " ++ state_name session.state)))
    else
      (table.map (fun r =>
        if r.id == session_id && r.state == SessionState.Busy
        then { r with state := SessionState.Ready, last_activity_at := some now }
        else r),
       Except.ok ())

/-- Message roles (src/models/message.rs `MessageRole`). -/
inductive MessageRole where
  | User
  | Agent
  | System
deriving DecidableEq, Repr

/-- A message row (src/models/message.rs `SessionMessage`). -/
structure SessionMessage where
  id : Nat
  session_id : Nat
  role : MessageRole
  content : String
  agent_id : Option Nat
  metadata : String
  created_at : Nat
deriving DecidableEq, Repr

/-- `CreateMessageRequest` (src/models/message.rs). -/
structure CreateMessageRequest where
  role : MessageRole
  content : String
  agent_id : Option Nat
  metadata : String
deriving DecidableEq, Repr

/-- An agent row, the fields the message paths read
(src/shared/models/agent.rs `Agent`). -/
structure Agent where
  id : Nat
  name : String
  workspace : String
  active : Bool
deriving DecidableEq, Repr

/-- `MessageResponse` (src/models/message.rs); ids stay numeric in the
model. -/
structure MessageResponse where
  id : Nat
  session_id : Nat
  role : MessageRole
  content : String
  agent_id : Option Nat
  agent_name : Option String
  metadata : String
  created_at : Nat
deriving DecidableEq, Repr

/-- Ascending `created_at` order on message rows (the `ORDER BY
m.created_at ASC` of the list query). -/
def msg_le (a b : SessionMessage) : Prop :=
  a.created_at ≤ b.created_at

instance : DecidableRel msg_le := fun a b => Nat.decLe a.created_at b.created_at

instance : IsTotal SessionMessage msg_le := ⟨fun a b => Nat.le_total a.created_at b.created_at⟩

instance : IsTrans SessionMessage msg_le := ⟨fun _ _ _ => Nat.le_trans⟩

/-- Ascending `created_at` order on message responses. -/
def resp_le (a b : MessageResponse) : Prop :=
  a.created_at ≤ b.created_at

/-- Descending `created_at` order on session rows (the `ORDER BY
created_at DESC` of the session list queries). -/
def session_created_desc (a b : Session) : Prop :=
  b.created_at ≤ a.created_at

instance : DecidableRel session_created_desc :=
  fun a b => Nat.decLe b.created_at a.created_at

/-- The limit the code computes: `limit.unwrap_or(100).min(1000)`
(src/models/message.rs line 204). -/
def effective_limit (limit : Option Int) : Int :=
  min (limit.getD 100) 1000

/-- The limit as the claim words it: clamped to the interval [0, 1000],
defaulting to 100 when absent. -/
def spec_clamped_limit (limit : Option Int) : Int :=
  max 0 (min (limit.getD 100) 1000)

/-- `SessionMessage::get_with_agent_info` (src/models/message.rs lines
198-237): filter by session, order by `created_at` ascending, page by
offset and limit, join agent names.  A negative LIMIT or OFFSET is
rejected by the database, modelled as the error branch. -/
def get_with_agent_info (messages : List SessionMessage) (agents : List Agent)
    (session_id : Nat) (limit offset : Option Int) :
    Except String (List MessageResponse) :=
  let lim := effective_limit limit
  let off := offset.getD 0
  if lim < 0 ∨ off < 0 then
    Except.error "LIMIT must not be negative"
  else
    let rows := messages.filter (fun m => m.session_id == session_id)
    let sorted := List.insertionSort msg_le rows
    let page := (sorted.drop off.toNat).take lim.toNat
    Except.ok (page.map (fun m =>
      { id := m.id, session_id := m.session_id, role := m.role,
        content := m.content, agent_id := m.agent_id,
        agent_name := m.agent_id.bind (fun aid =>
          (agents.find? (fun a => a.id == aid)).map (fun a => a.name)),
        metadata := m.metadata, created_at := m.created_at }))

/-- A task-queue row (src/operator/session_manager.rs `SessionTask`); the
JSON payload is modelled as a field list. -/
inductive Jv where
  | null
  | str (s : String)
  | num (n : Nat)
deriving DecidableEq, Repr

/-- Look a key up in a modelled JSON object. -/
def jv_lookup (obj : List (String × Jv)) (key : String) : Option Jv :=
  (obj.find? (fun p => p.1 == key)).map (fun p => p.2)

structure SessionTask where
  id : Nat
  task_type : String
  session_id : Nat
  payload : List (String × Jv)
  status : String
  created_at : Nat
  updated_at : Nat
  started_at : Option Nat
  completed_at : Option Nat
  error : Option String
deriving DecidableEq, Repr

/-- A command-result row (src/operator/session_manager.rs
`handle_execute_command`). -/
structure CommandResult where
  id : Nat
  session_id : Nat
  command : String
  output : String
  created_at : Nat
deriving DecidableEq, Repr

/-- The Docker effects the worker invokes, as oracles: each call either
succeeds (returning any output) or fails with a message
(src/operator/docker_manager.rs is an external effect boundary). -/
structure DockerManagerModel where
  create_container : Nat → Except String Unit
  destroy_container : Nat → Except String Unit
  execute_command : Nat → String → Except String String

/-- The tables the lifecycle worker touches. -/
structure WorkerDb where
  sessions : List Session
  tasks : List SessionTask
  command_results : List CommandResult

/-- `SessionManager::handle_create_session` (src/operator/session_manager.rs
lines 131-145). -/
def handle_create_session (docker : DockerManagerModel) (db : WorkerDb)
    (now : Nat) (task : SessionTask) : WorkerDb × Except String Unit :=
  match docker.create_container task.session_id with
  | Except.error e => (db, Except.error e)
  | Except.ok _ =>
    ({ db with sessions := db.sessions.map (fun s =>
        if s.id == task.session_id
        then { s with state := SessionState.Ready, started_at := some now,
                      last_activity_at := some now }
        else s) },
     Except.ok ())

/-- `SessionManager::handle_destroy_session` (src/operator/session_manager.rs
lines 147-161). -/
def handle_destroy_session (docker : DockerManagerModel) (db : WorkerDb)
    (now : Nat) (task : SessionTask) : WorkerDb × Except String Unit :=
  match docker.destroy_container task.session_id with
  | Except.error e => (db, Except.error e)
  | Except.ok _ =>
    ({ db with sessions := db.sessions.map (fun s =>
        if s.id == task.session_id
        then { s with state := SessionState.Idle, terminated_at := some now }
        else s) },
     Except.ok ())

/-- `SessionManager::handle_execute_command` (src/operator/session_manager.rs
lines 163-186); the fresh UUID for the result row is a parameter. -/
def handle_execute_command (docker : DockerManagerModel) (db : WorkerDb)
    (now fresh_id : Nat) (task : SessionTask) : WorkerDb × Except String Unit :=
  match jv_lookup task.payload "command" with
  | some (Jv.str command) =>
    (match docker.execute_command task.session_id command with
     | Except.error e => (db, Except.error e)
     | Except.ok output =>
       ({ db with command_results := db.command_results ++
           [{ id := fresh_id, session_id := task.session_id,
              command := command, output := output, created_at := now }] },
        Except.ok ()))
  | _ => (db, Except.error "Missing command in payload")

/-- `SessionManager::mark_task_completed` (src/operator/session_manager.rs
lines 188-203). -/
def mark_task_completed (tasks : List SessionTask) (now : Nat)
    (task_id : Nat) : List SessionTask :=
  tasks.map (fun t =>
    if t.id == task_id
    then { t with status := "completed", completed_at := some now, updated_at := now }
    else t)

/-- `SessionManager::mark_task_failed` (src/operator/session_manager.rs
lines 205-222). -/
def mark_task_failed (tasks : List SessionTask) (now : Nat) (task_id : Nat)
    (error : String) : List SessionTask :=
  tasks.map (fun t =>
    if t.id == task_id
    then { t with status := "failed", error := some error,
                  completed_at := some now, updated_at := now }
    else t)

/-- `SessionManager::process_task` (src/operator/session_manager.rs lines
104-129): dispatch on the task type — only `create_session`,
`destroy_session` and `execute_command` have handlers, every other type
falls through to an `Unknown task type` error — then finalize the task row
as completed or failed. -/
def process_task (docker : DockerManagerModel) (db : WorkerDb)
    (now fresh_id : Nat) (task : SessionTask) : WorkerDb :=
  let result : WorkerDb × Except String Unit :=
    match task.task_type with
    | "create_session" => handle_create_session docker db now task
    | "destroy_session" => handle_destroy_session docker db now task
    | "execute_command" => handle_execute_command docker db now fresh_id task
    | _ => (db, Except.error "Unknown task type")
  match result with
  | (db1, Except.ok _) =>
      { db1 with tasks := mark_task_completed db1.tasks now task.id }
  | (db1, Except.error e) =>
      { db1 with tasks := mark_task_failed db1.tasks now task.id e }

/-- The application state the REST message path touches; `docker_enabled`
models `state.docker` being `Some` (src/shared/models/mod.rs `AppState`). -/
structure AppStateModel where
  sessions : List Session
  tasks : List SessionTask
  messages : List SessionMessage
  agents : List Agent
  docker_enabled : Bool

/-- `ContainerLifecycleManager::create_session_container`
(src/docker/lifecycle.rs lines 66-101): create the volume and container
(the fresh container id is a parameter) and drive the session to `Ready`
through `Session::update_state`. -/
def lifecycle_create_session_container (st : AppStateModel) (now : Nat)
    (new_container : String) (session : Session) :
    AppStateModel × Except String Unit :=
  match Session.update_state st.sessions now session.id
      { state := SessionState.Ready, container_id := some new_container,
        persistent_volume_id := some (toString session.id),
        termination_reason := none } with
  | (s1, Except.ok _) => ({ st with sessions := s1 }, Except.ok ())
  | (s1, Except.error e) => ({ st with sessions := s1 }, Except.error e)

/-- `ContainerLifecycleManager::reactivate_session` (src/docker/lifecycle.rs
lines 167-203): require an `Idle` session; restart the existing container
(success modelled by `restart_ok`) and drive the session to `Ready`, or
fall back to creating a container when none is recorded. -/
def lifecycle_reactivate_session (st : AppStateModel) (now : Nat)
    (restart_ok : Bool) (new_container : String) (session_id : Nat) :
    AppStateModel × Except String Unit :=
  match Session.find_by_id st.sessions session_id with
  | none => (st, Except.error "Session not found")
  | some session =>
    if session.state ≠ SessionState.Idle then
      (st, Except.error "Session is not idle")
    else
      match session.container_id with
      | some container_id =>
        if restart_ok then
          match Session.update_state st.sessions now session_id
              { state := SessionState.Ready, container_id := some container_id,
                persistent_volume_id := session.persistent_volume_id,
                termination_reason := none } with
          | (s1, Except.ok _) => ({ st with sessions := s1 }, Except.ok ())
          | (s1, Except.error e) => ({ st with sessions := s1 }, Except.error e)
        else (st, Except.error "restart failed")
      | none => lifecycle_create_session_container st now new_container session

/-- `create_message` (src/rest/handlers/messages.rs lines 15-93): validate
the agent role, load the session, reactivate an `Idle` session through the
lifecycle manager (no task row is written on this path), run the
conditional `READY → BUSY` update, then insert the message row (its fresh
id is a parameter) and assemble the response. -/
def create_message (st : AppStateModel) (now : Nat) (restart_ok : Bool)
    (new_container : String) (msg_id : Nat) (session_id : Nat)
    (req : CreateMessageRequest) : AppStateModel × Except ApiError MessageResponse :=
  if req.role == MessageRole.Agent && req.agent_id == none then
    (st, Except.error (ApiError.badRequest "agent_id is required when role is AGENT"))
  else
    match Session.find_by_id st.sessions session_id with
    | none => (st, Except.error (ApiError.notFound "Session not found"))
    | some session =>
      let busy_update := fun (sessions : List Session) => sessions.map (fun r =>
        if r.id == session_id && r.state == SessionState.Ready
        then { r with state := SessionState.Busy, last_activity_at := some now }
        else r)
      let step : AppStateModel × Except ApiError Unit :=
        if session.state = SessionState.Idle then
          if st.docker_enabled then
            match lifecycle_reactivate_session st now restart_ok new_container session_id with
            | (st1, Except.error e) =>
                (st1, Except.error (ApiError.internal ("Failed to reactivate session: " ++ e)))
            | (st1, Except.ok _) =>
                ({ st1 with sessions := busy_update st1.sessions }, Except.ok ())
          else (st, Except.ok ())
        else if session.state = SessionState.Ready then
          ({ st with sessions := busy_update st.sessions }, Except.ok ())
        else (st, Except.ok ())
      match step with
      | (st1, Except.error e) => (st1, Except.error e)
      | (st1, Except.ok _) =>
        let message : SessionMessage :=
          { id := msg_id, session_id := session_id, role := req.role,
            content := req.content, agent_id := req.agent_id,
            metadata := req.metadata, created_at := now }
        let agent_name := message.agent_id.bind (fun aid =>
          (st1.agents.find? (fun a => a.id == aid)).map (fun a => a.name))
        ({ st1 with messages := st1.messages ++ [message] },
         Except.ok { id := message.id, session_id := message.session_id,
                     role := message.role, content := message.content,
                     agent_id := message.agent_id, agent_name := agent_name,
                     metadata := message.metadata, created_at := message.created_at })

/-- RBAC JWT claims (src/rbac.rs `RbacClaims`). -/
structure RbacClaims where
  sub : String
  sub_type : SubjectType
  workspace : Option String
  exp : Nat
  iat : Nat
  iss : String
deriving DecidableEq, Repr

/-- Wire form of a subject type (serde serialization of `SubjectType`). -/
def subject_type_str : SubjectType → String
  | SubjectType.Subject => "Subject"
  | SubjectType.ServiceAccount => "ServiceAccount"

/-- Parse a wire subject type. -/
def subject_type_of_str : String → Option SubjectType
  | "Subject" => some SubjectType.Subject
  | "ServiceAccount" => some SubjectType.ServiceAccount
  | _ => none

/-- Serialization of `RbacClaims` into the token payload (the serde JSON
encoding of the claims struct). -/
def claims_to_json (c : RbacClaims) : List (String × Jv) :=
  [ ("sub", Jv.str c.sub),
    ("sub_type", Jv.str (subject_type_str c.sub_type)),
    ("workspace", match c.workspace with | some w => Jv.str w | none => Jv.null),
    ("exp", Jv.num c.exp),
    ("iat", Jv.num c.iat),
    ("iss", Jv.str c.iss) ]

/-- Deserialization of the token payload back into `RbacClaims`. -/
def claims_of_json (obj : List (String × Jv)) : Option RbacClaims :=
  match jv_lookup obj "sub", jv_lookup obj "sub_type", jv_lookup obj "workspace",
        jv_lookup obj "exp", jv_lookup obj "iat", jv_lookup obj "iss" with
  | some (Jv.str sub), some (Jv.str st), some ws, some (Jv.num exp),
      some (Jv.num iat), some (Jv.str iss) =>
    match subject_type_of_str st with
    | none => none
    | some sub_type =>
      match ws with
      | Jv.null => some { sub := sub, sub_type := sub_type, workspace := none,
                          exp := exp, iat := iat, iss := iss }
      | Jv.str w => some { sub := sub, sub_type := sub_type, workspace := some w,
                           exp := exp, iat := iat, iss := iss }
      | _ => none
  | _, _, _, _, _, _ => none

/-- A signed token: the serialized claims and an HMAC modelled as the
keyed payload pair (the `jsonwebtoken` crate's HS256 encode). -/
structure JwtToken where
  payload : List (String × Jv)
  sig : String × List (String × Jv)
deriving DecidableEq, Repr

/-- `jsonwebtoken::encode` with `Header::default()` and an HS256 secret,
as called by src/auth.rs. -/
def jwt_encode (claims : RbacClaims) (secret : String) : JwtToken :=
  let payload := claims_to_json claims
  { payload := payload, sig := (secret, payload) }

/-- The default validation leeway of `jsonwebtoken::Validation` (60 s). -/
def jwt_leeway : Nat := 60

/-- `decode_rbac_jwt` (src/auth.rs lines 77-85): verify the signature with
the secret, deserialize, and validate `exp` against the clock with the
default leeway. -/
def decode_rbac_jwt (token : JwtToken) (secret : String) (now : Nat) :
    Except String RbacClaims :=
  if token.sig ≠ (secret, token.payload) then
    Except.error "InvalidSignature"
  else
    match claims_of_json token.payload with
    | none => Except.error "Malformed token"
    | some claims =>
      if now ≤ claims.exp + jwt_leeway then Except.ok claims
      else Except.error "ExpiredSignature"

/-- `create_service_account_jwt` (src/auth.rs lines 17-45): claims built
from the service account with a global workspace and the fixed issuer,
then encoded. -/
def create_service_account_jwt (service_account : ServiceAccount)
    (secret : String) (duration_hours : Nat) (now : Nat) : JwtToken :=
  jwt_encode
    { sub := service_account.user, sub_type := SubjectType.ServiceAccount,
      workspace := none, exp := now + duration_hours * 3600, iat := now,
      iss := "raworc-rbac" }
    secret

/-- `ListSessionsQuery` (src/server/rest/handlers/sessions.rs). -/
structure ListSessionsQuery where
  workspace : Option String
  created_by : Option String
  state : Option SessionState
deriving DecidableEq, Repr

/-- `Session::find_all` (src/models/session.rs lines 147-208): non-deleted
rows matching the optional workspace and creator filters, newest first. -/
def Session.find_all (table : List Session) (workspace created_by : Option String) :
    List Session :=
  let rows := table.filter (fun s =>
    s.deleted_at == none
      && (match workspace with | some ns => s.workspace == ns | none => true)
      && (match created_by with | some user => s.created_by == user | none => true))
  List.insertionSort session_created_desc rows

/-- The stored state the session-list endpoint reads. -/
structure ServerDb where
  sessions : List Session
  roles : List Role
  role_bindings : List RoleBinding

/-- `list_sessions` (src/server/rest/handlers/sessions.rs lines 85-135):
without a `created_by` filter the caller's own name is used; a
`created_by` naming someone else requires `api/sessions/list-all`,
otherwise the request is forbidden; then filter and list. -/
def list_sessions (db : ServerDb) (query : ListSessionsQuery)
    (auth : AuthPrincipal) : Except ApiError (List Session) :=
  let username := auth.name
  let filter_user : Except ApiError (Option String) :=
    match query.created_by with
    | some requested_user =>
      if requested_user ≠ username then
        let is_admin := check_permission auth
          { roles := db.roles, role_bindings := db.role_bindings }
          (PermissionContext.new "api" "sessions" "list-all")
        if is_admin then Except.ok (some requested_user)
        else Except.error (ApiError.forbidden "Cannot view other users' sessions")
      else Except.ok (some requested_user)
    | none => Except.ok (some username)
  match filter_user with
  | Except.error e => Except.error e
  | Except.ok fu =>
    let sessions := Session.find_all db.sessions query.workspace fu
    let sessions :=
      match query.state with
      | some state_filter => sessions.filter (fun s => s.state == state_filter)
      | none => sessions
    Except.ok sessions

def c9_claims : RbacClaims :=
  { sub := "admin", sub_type := SubjectType.ServiceAccount, workspace := none,
    exp := 100, iat := 0, iss := "raworc-rbac" }

def c10_db : ServerDb :=
  { sessions := [], roles := [], role_bindings := [] }

def c10_query : ListSessionsQuery :=
  { workspace := none, created_by := some "bob", state := none }

def c2_session : Session :=
  { id := 1, name := "s1", workspace := "default", starting_prompt := "hi",
    state := SessionState.Idle, waiting_timeout_seconds := some 300,
    container_id := some "c0", persistent_volume_id := some "1",
    created_by := "alice", parent_session_id := none, created_at := 0,
    started_at := some 2, last_activity_at := some 3, terminated_at := none,
    termination_reason := none, metadata := "", deleted_at := none }

def c2_state : AppStateModel :=
  { sessions := [c2_session], tasks := [], messages := [], agents := [],
    docker_enabled := true }

def c2_mreq : CreateMessageRequest :=
  { role := MessageRole.User, content := "ping", agent_id := none, metadata := "" }

/-- The pairs the specification allows (spec 4.1). -/
def allowed_transitions : List (SessionState × SessionState) :=
  [ (SessionState.Init, SessionState.Ready), (SessionState.Init, SessionState.Error),
    (SessionState.Ready, SessionState.Busy), (SessionState.Ready, SessionState.Idle),
    (SessionState.Ready, SessionState.Error),
    (SessionState.Busy, SessionState.Ready), (SessionState.Busy, SessionState.Error),
    (SessionState.Idle, SessionState.Ready), (SessionState.Idle, SessionState.Error),
    (SessionState.Error, SessionState.Init), (SessionState.Error, SessionState.Ready) ]

def c4_session : Session :=
  { id := 1, name := "s1", workspace := "default", starting_prompt := "hi",
    state := SessionState.Init, waiting_timeout_seconds := some 300,
    container_id := none, persistent_volume_id := none, created_by := "alice",
    parent_session_id := none, created_at := 0, started_at := none,
    last_activity_at := none, terminated_at := none, termination_reason := none,
    metadata := "", deleted_at := none }

def c4_req : UpdateSessionStateRequest :=
  { state := SessionState.Busy, container_id := none,
    persistent_volume_id := none, termination_reason := none }

def c7_session : Session :=
  { id := 1, name := "s1", workspace := "default", starting_prompt := "hi",
    state := SessionState.Busy, waiting_timeout_seconds := some 300,
    container_id := some "c0", persistent_volume_id := some "1",
    created_by := "alice", parent_session_id := none, created_at := 0,
    started_at := some 5, last_activity_at := some 6, terminated_at := none,
    termination_reason := none, metadata := "", deleted_at := none }

def c7_req : UpdateSessionStateRequest :=
  { state := SessionState.Ready, container_id := none,
    persistent_volume_id := none, termination_reason := none }

def c8_session : Session :=
  { c7_session with started_at := some 2, last_activity_at := some 3 }

def c1_reader_role : Role :=
  { id := none, name := "reader",
    rules := [{ api_groups := ["api"], resources := ["agents"],
                verbs := ["list"], resource_names := none }],
    description := none, created_at := "" }

def c1_binding : RoleBinding :=
  { id := none, role_name := "reader", principal_name := "alice",
    principal_type := SubjectType.Subject, workspace := some "team-a",
    created_at := "" }

def c1_alice : AuthPrincipal :=
  AuthPrincipal.subject { name := "alice" }

def c1_context : PermissionContext :=
  { api_group := "api", resource := "agents", verb := "list",
    resource_name := none, workspace := some "team-b" }

def c3_docker : DockerManagerModel :=
  { create_container := fun _ => Except.ok (),
    destroy_container := fun _ => Except.ok (),
    execute_command := fun _ c => Except.ok c }

def c3_stop_task : SessionTask :=
  { id := 10, task_type := "stop_session", session_id := 1, payload := [],
    status := "processing", created_at := 0, updated_at := 1,
    started_at := some 1, completed_at := none, error := none }

def c3_reactivate_task : SessionTask :=
  { c3_stop_task with id := 11, task_type := "reactivate_session" }

def c3_create_task : SessionTask :=
  { c3_stop_task with id := 12, task_type := "create_session" }

def c5_m1 : SessionMessage :=
  { id := 1, session_id := 1, role := MessageRole.User, content := "b",
    agent_id := none, metadata := "", created_at := 5 }

def c5_m2 : SessionMessage :=
  { id := 2, session_id := 1, role := MessageRole.User, content := "a",
    agent_id := none, metadata := "", created_at := 3 }

def c5_out : List MessageResponse :=
  [ { id := 2, session_id := 1, role := MessageRole.User, content := "a",
      agent_id := none, agent_name := none, metadata := "", created_at := 3 },
    { id := 1, session_id := 1, role := MessageRole.User, content := "b",
      agent_id := none, agent_name := none, metadata := "", created_at := 5 } ]

/-- A rule grant as worded by the specification (spec 4.6 step 4). -/
def RuleGrantsSpec (rule : Rule) (context : PermissionContext) : Prop :=
  ("*" ∈ rule.api_groups ∨ context.api_group ∈ rule.api_groups)
    ∧ ("*" ∈ rule.resources ∨ context.resource ∈ rule.resources)
    ∧ ("*" ∈ rule.verbs ∨ context.verb ∈ rule.verbs)
    ∧ (match rule.resource_names, context.resource_name with
       | none, _ => True
       | some names, some requested => "*" ∈ names ∨ requested ∈ names
       | some _, none => False)

end Raworc

namespace Raworc

theorem contains_eq_mem_string (l : List String) (x : String) :
    l.contains x = true ↔ x ∈ l := by
  simp [List.contains_iff_exists_mem_beq, beq_iff_eq]

/-- Claim C6: a role grants a permission context iff one of its rules does,
and a rule grants iff each of its four clauses matches as the specification
words them (wildcard or membership; a rule that lists `resourceNames` does
not grant a context carrying no resource name). -/
theorem role_grant_iff_some_rule_matches (role : Role) (context : PermissionContext) :
    role_grants_permission role context = true ↔
      ∃ rule ∈ role.rules, RuleGrantsSpec rule context := by
  unfold role_grants_permission
  rw [List.any_eq_true]
  constructor
  · rintro ⟨rule, hmem, hgrant⟩
    refine ⟨rule, hmem, ?_⟩
    unfold rule_grants_permission at hgrant
    simp only [Bool.and_eq_true, Bool.or_eq_true] at hgrant
    obtain ⟨⟨⟨hag, hres⟩, hverb⟩, hname⟩ := hgrant
    refine ⟨?_, ?_, ?_, ?_⟩
    · rcases hag with h | h
      · exact Or.inl ((contains_eq_mem_string _ _).mp h)
      · exact Or.inr ((contains_eq_mem_string _ _).mp h)
    · rcases hres with h | h
      · exact Or.inl ((contains_eq_mem_string _ _).mp h)
      · exact Or.inr ((contains_eq_mem_string _ _).mp h)
    · rcases hverb with h | h
      · exact Or.inl ((contains_eq_mem_string _ _).mp h)
      · exact Or.inr ((contains_eq_mem_string _ _).mp h)
    · cases hrn : rule.resource_names with
      | none => simp [hrn]
      | some names =>
        cases hcn : context.resource_name with
        | none => simp [hrn, hcn] at hname
        | some requested =>
          simp only [hrn, hcn, Bool.or_eq_true] at hname ⊢
          rcases hname with h | h
          · exact Or.inl ((contains_eq_mem_string _ _).mp h)
          · exact Or.inr ((contains_eq_mem_string _ _).mp h)
  · rintro ⟨rule, hmem, hag, hres, hverb, hname⟩
    refine ⟨rule, hmem, ?_⟩
    unfold rule_grants_permission
    simp only [Bool.and_eq_true, Bool.or_eq_true]
    refine ⟨⟨⟨?_, ?_⟩, ?_⟩, ?_⟩
    · rcases hag with h | h
      · exact Or.inl ((contains_eq_mem_string _ _).mpr h)
      · exact Or.inr ((contains_eq_mem_string _ _).mpr h)
    · rcases hres with h | h
      · exact Or.inl ((contains_eq_mem_string _ _).mpr h)
      · exact Or.inr ((contains_eq_mem_string _ _).mpr h)
    · rcases hverb with h | h
      · exact Or.inl ((contains_eq_mem_string _ _).mpr h)
      · exact Or.inr ((contains_eq_mem_string _ _).mpr h)
    · cases hrn : rule.resource_names with
      | none => simp
      | some names =>
        cases hcn : context.resource_name with
        | none => simp [hrn, hcn] at hname
        | some requested =>
          simp only [hrn, hcn] at hname
          simp only [Bool.or_eq_true]
          rcases hname with h | h
          · exact Or.inl ((contains_eq_mem_string _ _).mpr h)
          · exact Or.inr ((contains_eq_mem_string _ _).mpr h)

theorem apply_state_update_id (s : Session) (now : Nat)
    (req : UpdateSessionStateRequest) :
    (apply_state_update s now req).id = s.id := by
  rcases req with ⟨st, cid, pv, reason⟩
  cases st <;> cases cid <;> cases pv <;> cases reason <;> simp [apply_state_update]

theorem apply_state_update_deleted_at (s : Session) (now : Nat)
    (req : UpdateSessionStateRequest) :
    (apply_state_update s now req).deleted_at = s.deleted_at := by
  rcases req with ⟨st, cid, pv, reason⟩
  cases st <;> cases cid <;> cases pv <;> cases reason <;> simp [apply_state_update]

theorem apply_state_update_started_at (s : Session) (now : Nat)
    (req : UpdateSessionStateRequest) (h : req.state = SessionState.Ready) :
    (apply_state_update s now req).started_at = some now := by
  rcases req with ⟨st, cid, pv, reason⟩
  subst h
  cases cid <;> cases pv <;> cases reason <;> simp [apply_state_update]

theorem apply_state_update_last_activity_at (s : Session) (now : Nat)
    (req : UpdateSessionStateRequest) :
    (apply_state_update s now req).last_activity_at = some now := by
  rcases req with ⟨st, cid, pv, reason⟩
  cases st <;> cases cid <;> cases pv <;> cases reason <;> simp [apply_state_update]

theorem find_by_id_map (table : List Session) (id : Nat) (f : Session → Session)
    (hid : ∀ s, (f s).id = s.id) (hdel : ∀ s, (f s).deleted_at = s.deleted_at) :
    Session.find_by_id (table.map f) id = (Session.find_by_id table id).map f := by
  induction table with
  | nil => rfl
  | cons head tail ih =>
    simp only [Session.find_by_id, List.map_cons, List.find?_cons] at *
    rw [hid, hdel]
    cases hcond : (head.id == id && head.deleted_at == none) with
    | true => rfl
    | false => exact ih

theorem find_by_id_id_eq (table : List Session) (id : Nat) (session : Session)
    (h : Session.find_by_id table id = some session) : session.id = id := by
  have hp := List.find?_some h
  simp only [Bool.and_eq_true, beq_iff_eq] at hp
  exact hp.1

/-- Claim C4: the transition validator accepts exactly the eleven listed
pairs (so every self-transition is rejected), and a rejected transition
through the state-update endpoint surfaces a bad-request error while the
sessions table is returned unchanged. -/
theorem transition_validator_exact_and_rejection :
    (∀ s t : SessionState, can_transition_to s t = true ↔ (s, t) ∈ allowed_transitions) ∧
    (∀ (table : List Session) (now id : Nat) (req : UpdateSessionStateRequest)
        (session : Session),
      Session.find_by_id table id = some session →
      can_transition_to session.state req.state = false →
      update_session_state_endpoint table now id req =
        (table, Except.error (ApiError.badRequest ("Invalid state transition from "
          ++ state_name session.state ++ " to " ++ state_name req.state)))) := by
  constructor
  · intro s t
    cases s <;> cases t <;> decide
  · intro table now id req session hfind hcan
    have hstep : Session.update_state table now id req =
        (table, Except.error ("Invalid state transition from "
          ++ state_name session.state ++ " to " ++ state_name req.state)) := by
      unfold Session.update_state
      rw [hfind]
      simp [hcan]
    have hpre : ("Invalid state transition").data.isPrefixOf
        ("Invalid state transition from "
          ++ state_name session.state ++ " to " ++ state_name req.state).data = true := by
      cases session.state <;> cases req.state <;> decide
    unfold update_session_state_endpoint
    rw [hstep]
    simp [hpre]

/-- Witness for C4: a session in `Init` asked to move to `Busy` gets a
bad-request error and an unchanged table. -/
theorem transition_validator_exact_and_rejection_witness :
    update_session_state_endpoint [c4_session] 5 1 c4_req =
      ([c4_session], Except.error (ApiError.badRequest
        "Invalid state transition from Init to Busy")) := by
  have h := transition_validator_exact_and_rejection.2 [c4_session] 5 1 c4_req
    c4_session rfl rfl
  exact h

/-- Counterexample for C7: a session whose `started_at` is already `some 5`
transitions `Busy → Ready` at time 9; `update_state` rewrites `started_at`
to 9 instead of leaving it unchanged. -/
theorem started_at_overwritten_on_reready :
    c7_session.started_at = some 5 ∧
    (Session.find_by_id (Session.update_state [c7_session] 9 1 c7_req).1 1).bind
        Session.started_at = some 9 ∧
    (9 : Nat) ≠ 5 := by
  refine ⟨rfl, rfl, by decide⟩

/-- Claim C7 (amended): every valid transition into `Ready` through
`update_state` sets both `started_at` and `last_activity_at` to now — the
write is unconditional, overwriting any previously recorded `started_at`. -/
theorem ready_transition_stamps_started_at (table : List Session)
    (now id : Nat) (req : UpdateSessionStateRequest) (session : Session)
    (hfind : Session.find_by_id table id = some session)
    (hcan : can_transition_to session.state req.state = true)
    (hready : req.state = SessionState.Ready) :
    ∃ updated,
      (Session.update_state table now id req).2 = Except.ok (some updated) ∧
      updated.started_at = some now ∧
      updated.last_activity_at = some now := by
  refine ⟨apply_state_update session now req, ?_, ?_, ?_⟩
  · unfold Session.update_state
    rw [hfind]
    simp only [hcan, if_true]
    have hmap := find_by_id_map table id
      (fun r => if r.id == id then apply_state_update r now req else r)
      (fun s => by
        by_cases h : (s.id == id) = true
        · simp [h, apply_state_update_id]
        · simp [h])
      (fun s => by
        by_cases h : (s.id == id) = true
        · simp [h, apply_state_update_deleted_at]
        · simp [h])
    rw [hmap, hfind]
    have hid : session.id = id := find_by_id_id_eq table id session hfind
    simp [hid]
  · exact apply_state_update_started_at session now req hready
  · exact apply_state_update_last_activity_at session now req

/-- Witness for the amended C7: a concrete `Busy → Ready` transition at
time 9 yields a row stamped 9 in both fields. -/
theorem ready_transition_stamps_started_at_witness :
    ∃ updated,
      (Session.update_state [c7_session] 9 1 c7_req).2 = Except.ok (some updated) ∧
      updated.started_at = some 9 ∧
      updated.last_activity_at = some 9 :=
  ready_transition_stamps_started_at [c7_session] 9 1 c7_req c7_session rfl rfl rfl

/-- Claim C8: completing a session that exists and is `Busy` moves it to
`Ready` and stamps `last_activity_at`; completing an existing session in
any other state yields a bad-request error and the table is unchanged. -/
theorem complete_busy_to_ready (table : List Session) (now id : Nat)
    (session : Session)
    (hfind : Session.find_by_id table id = some session) :
    (session.state = SessionState.Busy →
      (complete_session_processing table now id).2 = Except.ok () ∧
      Session.find_by_id (complete_session_processing table now id).1 id =
        some { session with state := SessionState.Ready,
                            last_activity_at := some now }) ∧
    (session.state ≠ SessionState.Busy →
      complete_session_processing table now id =
        (table, Except.error (ApiError.badRequest
          ("Session is not in BUSY state, current state: "
            ++ state_name session.state)))) := by
  constructor
  · intro hbusy
    constructor
    · unfold complete_session_processing
      rw [hfind]
      simp [hbusy]
    · unfold complete_session_processing
      rw [hfind]
      simp only [hbusy, ne_eq, not_true_eq_false, if_false]
      have hmap := find_by_id_map table id
        (fun r => if r.id == id && r.state == SessionState.Busy
          then { r with state := SessionState.Ready, last_activity_at := some now }
          else r)
        (fun s => by
          by_cases h : (s.id == id && s.state == SessionState.Busy) = true
          · simp [h]
          · simp [h])
        (fun s => by
          by_cases h : (s.id == id && s.state == SessionState.Busy) = true
          · simp [h]
          · simp [h])
      simp only [hmap, hfind]
      have hid : session.id = id := find_by_id_id_eq table id session hfind
      simp [hid, hbusy]
  · intro hother
    unfold complete_session_processing
    rw [hfind]
    simp [hother]

/-- Witness for C8: a concrete `Busy` session completes to `Ready` at time
7, and a concrete `Init` session gets a bad request with nothing changed. -/
theorem complete_busy_to_ready_witness :
    ((complete_session_processing [c8_session] 7 1).2 = Except.ok () ∧
      Session.find_by_id (complete_session_processing [c8_session] 7 1).1 1 =
        some { c8_session with state := SessionState.Ready,
                               last_activity_at := some (7 : Nat) }) ∧
    complete_session_processing [c4_session] 7 1 =
      ([c4_session], Except.error (ApiError.badRequest
        "Session is not in BUSY state, current state: Init")) := by
  constructor
  · exact (complete_busy_to_ready [c8_session] 7 1 c8_session rfl).1 rfl
  · exact (complete_busy_to_ready [c4_session] 7 1 c4_session rfl).2 (by decide)

/-- Claim C1 is violated by the code: `check_permission` loads the
principal's bindings with the workspace argument fixed to `None` and
`get_applicable_bindings` never inspects `binding.workspace`, so a binding
scoped to workspace `team-a` still contributes its role to a request
targeting workspace `team-b`; removing that binding flips the decision,
showing the mismatched binding was not treated as absent. -/
theorem binding_workspace_ignored_by_authorization :
    c1_binding.workspace = some "team-a" ∧
    c1_context.workspace = some "team-b" ∧
    check_permission c1_alice
      { roles := [c1_reader_role], role_bindings := [c1_binding] } c1_context = true ∧
    check_permission c1_alice
      { roles := [c1_reader_role], role_bindings := [] } c1_context = false :=
  ⟨rfl, rfl, rfl, rfl⟩

/-- Claim C3 is violated by the code: `process_task` dispatches only
`create_session`, `destroy_session` and `execute_command`; a claimed
`stop_session` or `reactivate_session` task falls through the dispatch and
is finalized as `failed` with the error `Unknown task type` even though
the Docker oracle would have succeeded — contrast the `create_session`
task, which completes. -/
theorem stop_and_reactivate_tasks_marked_failed :
    (process_task c3_docker
        { sessions := [], tasks := [c3_stop_task], command_results := [] }
        4 0 c3_stop_task).tasks =
      [{ c3_stop_task with
          status := "failed"
          error := some "Unknown task type"
          completed_at := some 4
          updated_at := 4 }] ∧
    (process_task c3_docker
        { sessions := [], tasks := [c3_reactivate_task], command_results := [] }
        4 0 c3_reactivate_task).tasks =
      [{ c3_reactivate_task with
          status := "failed"
          error := some "Unknown task type"
          completed_at := some 4
          updated_at := 4 }] ∧
    (process_task c3_docker
        { sessions := [], tasks := [c3_create_task], command_results := [] }
        4 0 c3_create_task).tasks =
      [{ c3_create_task with
          status := "completed"
          completed_at := some 4
          updated_at := 4 }] :=
  ⟨rfl, rfl, rfl⟩

/-- Counterexample for C5: a supplied limit of -1 is not clamped to the
interval [0, 1000] — the code computes -1 where the claim requires 0, and
the query is rejected by the database instead of returning rows. -/
theorem negative_limit_not_clamped :
    effective_limit (some (-1)) = -1 ∧
    spec_clamped_limit (some (-1)) = 0 ∧
    effective_limit (some (-1)) ≠ spec_clamped_limit (some (-1)) ∧
    get_with_agent_info [] [] 1 (some (-1)) none =
      Except.error "LIMIT must not be negative" := by
  refine ⟨rfl, rfl, by decide, rfl⟩

/-- Claim C5 (amended): the effective limit is the supplied limit
(default 100) clamped above to 1000 — it coincides with the claimed
[0, 1000] clamp only for non-negative inputs — and every successful read
returns messages of the requested session ordered by `created_at`
ascending, at most the effective limit of them. -/
theorem messages_sorted_limit_capped (messages : List SessionMessage)
    (agents : List Agent) (session_id : Nat) (limit offset : Option Int)
    (out : List MessageResponse)
    (hok : get_with_agent_info messages agents session_id limit offset =
      Except.ok out) :
    List.Sorted resp_le out ∧
    out.length ≤ (effective_limit limit).toNat ∧
    effective_limit limit ≤ 1000 ∧
    (0 ≤ limit.getD 100 → effective_limit limit = spec_clamped_limit limit) := by
  unfold get_with_agent_info at hok
  dsimp only at hok
  split at hok
  · exact absurd hok (by simp)
  · rename_i hneg
    rw [Except.ok.injEq] at hok
    subst hok
    refine ⟨?_, ?_, ?_, ?_⟩
    · have hsorted : List.Sorted msg_le
          (List.insertionSort msg_le
            (messages.filter (fun m => m.session_id == session_id))) :=
        List.sorted_insertionSort msg_le _
      have hsub := (List.take_sublist (effective_limit limit).toNat
          ((List.insertionSort msg_le
            (messages.filter (fun m => m.session_id == session_id))).drop
              ((offset.getD 0).toNat))).trans
        (List.drop_sublist ((offset.getD 0).toNat)
          (List.insertionSort msg_le
            (messages.filter (fun m => m.session_id == session_id))))
      have hpage := List.Pairwise.sublist hsub hsorted
      rw [List.Sorted, List.pairwise_map]
      exact hpage.imp (fun h => h)
    · rw [List.length_map, List.length_take]
      exact min_le_left _ _
    · exact min_le_right _ _
    · intro hpos
      unfold effective_limit spec_clamped_limit
      omega

/-- Witness for the amended C5: two out-of-order messages come back sorted
ascending within the default limit. -/
theorem messages_sorted_limit_capped_witness :
    List.Sorted resp_le c5_out ∧
    c5_out.length ≤ (effective_limit none).toNat ∧
    effective_limit none ≤ 1000 ∧
    (0 ≤ (none : Option Int).getD 100 →
      effective_limit none = spec_clamped_limit none) :=
  messages_sorted_limit_capped [c5_m1, c5_m2] [] 1 none none c5_out rfl

theorem claims_of_json_to_json (c : RbacClaims) :
    claims_of_json (claims_to_json c) = some c := by
  rcases c with ⟨sub, st, ws, exp, iat, iss⟩
  cases st <;> cases ws <;> rfl

/-- Claim C9: encoding any claims value with a secret and decoding the
token with the same secret returns the input claims, provided the expiry
lies in the future of the decoding clock. -/
theorem jwt_round_trip (claims : RbacClaims) (secret : String) (now : Nat)
    (hexp : now < claims.exp) :
    decode_rbac_jwt (jwt_encode claims secret) secret now = Except.ok claims := by
  have hle : now ≤ claims.exp + jwt_leeway := by
    unfold jwt_leeway
    omega
  unfold decode_rbac_jwt jwt_encode
  dsimp only
  rw [if_neg (fun h => h rfl), claims_of_json_to_json]
  dsimp only
  rw [if_pos hle]

/-- Witness for C9: concrete admin claims round-trip through a concrete
secret at a clock before expiry. -/
theorem jwt_round_trip_witness :
    (10 : Nat) < c9_claims.exp ∧
    decode_rbac_jwt (jwt_encode c9_claims "secret") "secret" 10 =
      Except.ok c9_claims :=
  ⟨by decide, jwt_round_trip c9_claims "secret" 10 (by decide)⟩

theorem mem_find_all_created_by (table : List Session) (ws : Option String)
    (u : String) (s : Session)
    (hmem : s ∈ Session.find_all table ws (some u)) : s.created_by = u := by
  unfold Session.find_all at hmem
  have hmem2 := (List.perm_insertionSort session_created_desc _).mem_iff.mp hmem
  have hp := List.of_mem_filter hmem2
  simp only [Bool.and_eq_true] at hp
  exact eq_of_beq hp.2

/-- Claim C10: `list_sessions` without a `created_by` query returns only
sessions created by the calling principal, and a `created_by` naming a
different user without the `api/sessions/list-all` permission is rejected
as forbidden. -/
theorem list_sessions_owner_scoped (db : ServerDb) (query : ListSessionsQuery)
    (auth : AuthPrincipal) :
    (query.created_by = none →
      ∀ out, list_sessions db query auth = Except.ok out →
        ∀ s ∈ out, s.created_by = auth.name) ∧
    (∀ requested, query.created_by = some requested → requested ≠ auth.name →
      check_permission auth { roles := db.roles, role_bindings := db.role_bindings }
        (PermissionContext.new "api" "sessions" "list-all") = false →
      list_sessions db query auth =
        Except.error (ApiError.forbidden "Cannot view other users' sessions")) := by
  constructor
  · intro hnone out hok s hs
    unfold list_sessions at hok
    rw [hnone] at hok
    dsimp only at hok
    cases hstate : query.state with
    | none =>
      rw [hstate] at hok
      dsimp only at hok
      rw [Except.ok.injEq] at hok
      subst hok
      exact mem_find_all_created_by db.sessions query.workspace auth.name s hs
    | some state_filter =>
      rw [hstate] at hok
      dsimp only at hok
      rw [Except.ok.injEq] at hok
      subst hok
      exact mem_find_all_created_by db.sessions query.workspace auth.name s
        (List.mem_of_mem_filter hs)
  · intro requested hsome hne hperm
    unfold list_sessions
    rw [hsome]
    simp [hne, hperm]

/-- Witness for C10: with no bindings at all, alice asking for bob's
sessions is forbidden. -/
theorem list_sessions_owner_scoped_witness :
    list_sessions c10_db c10_query c1_alice =
      Except.error (ApiError.forbidden "Cannot view other users' sessions") :=
  (list_sessions_owner_scoped c10_db c10_query c1_alice).2 "bob" rfl
    (by decide) rfl

/-- Counterexample for C2: an accepted message on a concrete `Idle`
session with a live container leaves the task queue empty — no
`reactivate_session` task row exists afterwards — while the message is
persisted and the session ends `Busy`. -/
theorem message_on_idle_writes_no_task :
    (create_message c2_state 9 true "c-new" 0 1 c2_mreq).1.tasks = [] ∧
    (create_message c2_state 9 true "c-new" 0 1 c2_mreq).2 =
      Except.ok { id := 0, session_id := 1, role := MessageRole.User,
                  content := "ping", agent_id := none, agent_name := none,
                  metadata := "", created_at := 9 } ∧
    Session.find_by_id (create_message c2_state 9 true "c-new" 0 1 c2_mreq).1.sessions 1 =
      some { c2_session with state := SessionState.Busy, started_at := some 9,
                             last_activity_at := some 9 } :=
  ⟨rfl, rfl, rfl⟩

theorem apply_state_update_reactivate (s : Session) (now : Nat) (c : String)
    (hc : s.container_id = some c) :
    apply_state_update s now
      { state := SessionState.Ready, container_id := some c,
        persistent_volume_id := s.persistent_volume_id,
        termination_reason := none } =
    { s with state := SessionState.Ready, started_at := some now,
             last_activity_at := some now } := by
  rcases s with ⟨sid, nm, ws, sp, stt, wts, cid, pv, cb, psi, ca, sa, la, ta, tr, md, da⟩
  simp only at hc
  subst hc
  cases pv <;> rfl

/-- Claim C2 (amended): an accepted `POST /sessions/{id}/messages` on an
`Idle` session with a recorded container writes no task row at all —
`create_message` calls the lifecycle manager's `reactivate_session`
directly, which restarts the container and drives the session
`Idle → Ready`, then the conditional update drives `Ready → Busy` — and
only then is the message persisted. -/
theorem message_on_idle_reactivates_directly (st : AppStateModel) (now : Nat)
    (new_container : String) (msg_id session_id : Nat)
    (req : CreateMessageRequest) (session : Session) (c : String)
    (hval : (req.role == MessageRole.Agent && req.agent_id == none) = false)
    (hfind : Session.find_by_id st.sessions session_id = some session)
    (hidle : session.state = SessionState.Idle)
    (hcont : session.container_id = some c)
    (hdock : st.docker_enabled = true) :
    (create_message st now true new_container msg_id session_id req).1.tasks =
      st.tasks ∧
    (create_message st now true new_container msg_id session_id req).2 =
      Except.ok { id := msg_id, session_id := session_id, role := req.role,
                  content := req.content, agent_id := req.agent_id,
                  agent_name := req.agent_id.bind (fun aid =>
                    (st.agents.find? (fun a => a.id == aid)).map (fun a => a.name)),
                  metadata := req.metadata, created_at := now } ∧
    Session.find_by_id
        (create_message st now true new_container msg_id session_id req).1.sessions
        session_id =
      some { session with state := SessionState.Busy, started_at := some now,
                          last_activity_at := some now } ∧
    (create_message st now true new_container msg_id session_id req).1.messages =
      st.messages ++ [{ id := msg_id, session_id := session_id, role := req.role,
                        content := req.content, agent_id := req.agent_id,
                        metadata := req.metadata, created_at := now }] := by
  have hid : session.id = session_id := find_by_id_id_eq _ _ _ hfind
  have hcan : can_transition_to session.state SessionState.Ready = true := by
    rw [hidle]
    rfl
  have hupdate : Session.update_state st.sessions now session_id
      { state := SessionState.Ready, container_id := some c,
        persistent_volume_id := session.persistent_volume_id,
        termination_reason := none } =
      (st.sessions.map (fun r => if r.id == session_id
          then apply_state_update r now
            { state := SessionState.Ready, container_id := some c,
              persistent_volume_id := session.persistent_volume_id,
              termination_reason := none }
          else r),
       Except.ok (Session.find_by_id (st.sessions.map (fun r => if r.id == session_id
          then apply_state_update r now
            { state := SessionState.Ready, container_id := some c,
              persistent_volume_id := session.persistent_volume_id,
              termination_reason := none }
          else r)) session_id)) := by
    unfold Session.update_state
    rw [hfind]
    simp [hcan]
  have hreact : lifecycle_reactivate_session st now true new_container session_id =
      ({ st with sessions := st.sessions.map (fun r => if r.id == session_id
          then apply_state_update r now
            { state := SessionState.Ready, container_id := some c,
              persistent_volume_id := session.persistent_volume_id,
              termination_reason := none }
          else r) },
       Except.ok ()) := by
    unfold lifecycle_reactivate_session
    rw [hfind]
    simp only [hidle, hcont]
    rw [hupdate]
    simp
  have hfind1 : Session.find_by_id (st.sessions.map (fun r => if r.id == session_id
      then apply_state_update r now
        { state := SessionState.Ready, container_id := some c,
          persistent_volume_id := session.persistent_volume_id,
          termination_reason := none }
      else r)) session_id =
      some { session with state := SessionState.Ready, started_at := some now,
                          last_activity_at := some now } := by
    rw [find_by_id_map _ _ _
      (fun s => by
        by_cases h : (s.id == session_id) = true
        · simp [h, apply_state_update_id]
        · simp [h])
      (fun s => by
        by_cases h : (s.id == session_id) = true
        · simp [h, apply_state_update_deleted_at]
        · simp [h])]
    rw [hfind]
    simp only [Option.map_some']
    rw [if_pos (by simp [hid])]
    rw [apply_state_update_reactivate session now c hcont]
  have hrun : create_message st now true new_container msg_id session_id req =
      ({ st with
          sessions := (st.sessions.map (fun r => if r.id == session_id
            then apply_state_update r now
              { state := SessionState.Ready, container_id := some c,
                persistent_volume_id := session.persistent_volume_id,
                termination_reason := none }
            else r)).map (fun r =>
              if r.id == session_id && r.state == SessionState.Ready
              then { r with state := SessionState.Busy, last_activity_at := some now }
              else r)
          messages := st.messages ++
            [{ id := msg_id, session_id := session_id, role := req.role,
               content := req.content, agent_id := req.agent_id,
               metadata := req.metadata, created_at := now }] },
       Except.ok { id := msg_id, session_id := session_id, role := req.role,
                   content := req.content, agent_id := req.agent_id,
                   agent_name := req.agent_id.bind (fun aid =>
                     (st.agents.find? (fun a => a.id == aid)).map (fun a => a.name)),
                   metadata := req.metadata, created_at := now }) := by
    unfold create_message
    simp only [hval, hfind, hidle, hdock]
    rw [hreact]
    simp [hdock]
  refine ⟨?_, ?_, ?_, ?_⟩
  · rw [hrun]
  · rw [hrun]
  · rw [hrun]
    rw [find_by_id_map _ _ _
      (fun s => by
        by_cases h : (s.id == session_id && s.state == SessionState.Ready) = true
        · simp [h]
        · simp [h])
      (fun s => by
        by_cases h : (s.id == session_id && s.state == SessionState.Ready) = true
        · simp [h]
        · simp [h])]
    rw [hfind1]
    simp only [Option.map_some']
    rw [if_pos (by simp [hid])]
  · rw [hrun]

/-- Witness for the amended C2: the concrete idle-session scenario run
through the theorem. -/
theorem message_on_idle_reactivates_directly_witness :
    (create_message c2_state 9 true "c-new" 0 1 c2_mreq).1.tasks =
      c2_state.tasks ∧
    (create_message c2_state 9 true "c-new" 0 1 c2_mreq).2 =
      Except.ok { id := 0, session_id := 1, role := c2_mreq.role,
                  content := c2_mreq.content, agent_id := c2_mreq.agent_id,
                  agent_name := c2_mreq.agent_id.bind (fun aid =>
                    (c2_state.agents.find? (fun a => a.id == aid)).map (fun a => a.name)),
                  metadata := c2_mreq.metadata, created_at := 9 } ∧
    Session.find_by_id
        (create_message c2_state 9 true "c-new" 0 1 c2_mreq).1.sessions 1 =
      some { c2_session with state := SessionState.Busy, started_at := some 9,
                             last_activity_at := some 9 } ∧
    (create_message c2_state 9 true "c-new" 0 1 c2_mreq).1.messages =
      c2_state.messages ++ [{ id := 0, session_id := 1, role := c2_mreq.role,
                              content := c2_mreq.content, agent_id := c2_mreq.agent_id,
                              metadata := c2_mreq.metadata, created_at := 9 }] :=
  message_on_idle_reactivates_directly c2_state 9 "c-new" 0 1 c2_mreq
    c2_session "c0" rfl rfl rfl rfl rfl

end Raworc
